import Mathlib

/-!
Verification of the JANATPMP ATLAS two-stage retrieval and salience-feedback
pipeline, as a shallow embedding in Lean 4.

Source files embedded here:
* `src/atlas/config.py` — tunable constants and the set of module-level names
  the config module defines.
* `src/atlas/memory_service.py` — `write_salience` and `write_usage_salience`,
  the salience feedback engine writing into Qdrant payloads.
* `src/atlas/pipeline.py` — `rerank_and_write_salience`, the rerank stage with
  its fallback to ANN ordering.
* `src/services/vector_store.py` — `search`, `search_all`, `point_exists`.
* `src/atlas/usage_signal.py` — `_extract_keywords`, `compute_usage_signal`.
* `src/services/bulk_embed.py` and `src/services/embedding.py` — the character
  truncation performed (and not performed) before embedding.

Modelling conventions: Python floats are modelled as exact rationals `ℚ`;
Python exceptions as `Except`/`Option`; the Qdrant point store of one
collection as an association list from point id to payload.  Model backends
(embedder, reranker, Qdrant client) are abstract parameters, since they live
outside the repository.
-/

/-- A Qdrant point payload, restricted to the fields the salience feedback
engine reads and writes.  In the source a payload is an open JSON map;
`salience` is absent until first written (`payload.get("salience", 0.5)`),
and the two timestamps are absent until their first write. -/
structure Payload where
  salience : Option ℚ
  last_retrieved : Option String
  last_usage_signal : Option String
deriving DecidableEq

/-- One Qdrant collection: an association list from point id to payload.
Qdrant's `retrieve` is lookup; `set_payload` merges keys into the payload of
an existing point and silently does nothing for an id that is not stored. -/
abbrev Store := List (String × Payload)

/-- A search candidate, the dict built in `vector_store.search` from a Qdrant
hit: `{"id": str(hit.id), "score": hit.score, **hit.payload}`.  `rerank_score`
is absent until the reranker populates it (`x.get("rerank_score", 0)` style
reads), and `source_collection` is absent until `search_all` tags it. -/
structure Candidate where
  id : String
  score : ℚ
  rerank_score : Option ℚ
  text : String
  source_collection : Option String
deriving DecidableEq

/-- A usage-scored hit passed to `write_usage_salience`: a dict with `id` and
`usage_score` keys, the latter read as `result.get("usage_score", 0.0)`. -/
structure UsageHit where
  id : String
  usage_score : Option ℚ
deriving DecidableEq

/-! ### Constants from `src/atlas/config.py` -/

/-- `SALIENCE_BOOST_RATE = 0.05` (atlas/config.py line 28). -/
def SALIENCE_BOOST_RATE : ℚ := 0.05

/-- `SALIENCE_DEFAULT = 0.5` (atlas/config.py line 29). -/
def SALIENCE_DEFAULT : ℚ := 0.5

/-- `RERANK_CANDIDATES = 20` (atlas/config.py line 32). -/
def RERANK_CANDIDATES : Nat := 20

/-- `RERANK_RETURN = 5` (atlas/config.py line 33). -/
def RERANK_RETURN : Nat := 5

/-- `MAX_TEXT_CHARS = 6_000` (atlas/config.py line 25). -/
def ATLAS_MAX_TEXT_CHARS : Nat := 6000

/-- `MAX_TEXT_CHARS = 8_000` (services/bulk_embed.py line 23). -/
def BULK_MAX_TEXT_CHARS : Nat := 8000

/-! ### The module-import model for claim C1

`from M import a, b` succeeds exactly when module `M`'s top-level namespace
defines every imported name; otherwise Python raises `ImportError` while
executing the importing module, which propagates to whoever triggered the
import. -/

/-- The complete list of module-level names assigned in `src/atlas/config.py`
(lines 4-33): the two model ids, dimensions/VRAM/sequence constants, the two
salience constants actually present, and the two rerank constants. -/
def configDefinedNames : List String :=
  ["EMBEDDING_MODEL", "RERANKER_MODEL", "EMBEDDING_DIM", "GPU_MEMORY_FRACTION",
   "MAX_SEQ_LENGTH", "MAX_TEXT_CHARS", "SALIENCE_BOOST_RATE", "SALIENCE_DEFAULT",
   "RERANK_CANDIDATES", "RERANK_RETURN"]

/-- Names `src/atlas/memory_service.py` (lines 12-15) imports from
`atlas.config`. -/
def memoryServiceConfigImports : List String :=
  ["SALIENCE_BOOST_RATE", "SALIENCE_DEFAULT",
   "SALIENCE_USAGE_RATE", "SALIENCE_DECAY_RATE"]

/-- Names `src/atlas/pipeline.py` (line 9) imports from `atlas.config`. -/
def pipelineConfigImports : List String :=
  ["RERANK_CANDIDATES", "RERANK_RETURN"]

/-- Names `src/atlas/reranking_service.py` (line 12) imports from
`atlas.config`. -/
def rerankingServiceConfigImports : List String :=
  ["RERANKER_MODEL", "GPU_MEMORY_FRACTION", "MAX_SEQ_LENGTH"]

/-- Whether `import atlas.memory_service` completes without raising: every
name in its `from atlas.config import (...)` must be defined by the config
module. -/
def atlasMemoryServiceImportOk : Bool :=
  memoryServiceConfigImports.all (fun n => configDefinedNames.contains n)

/-- Whether `from atlas.pipeline import rerank_and_write_salience` (executed
inside `vector_store.search`) completes without raising.  `atlas.pipeline`
imports from `atlas.config`, from `atlas.reranking_service` (which itself
imports from `atlas.config`), and from `atlas.memory_service`; a failure in
any of these raises at `atlas.pipeline` load time. -/
def atlasPipelineImportOk : Bool :=
  pipelineConfigImports.all (fun n => configDefinedNames.contains n) &&
  rerankingServiceConfigImports.all (fun n => configDefinedNames.contains n) &&
  atlasMemoryServiceImportOk

/-! ### The salience feedback engine (`src/atlas/memory_service.py`) -/

/-- Qdrant `client.retrieve(collection, [point_id], with_payload=True)`,
reduced to the single-point lookup the memory service performs. -/
def getPayload (store : Store) (id : String) : Option Payload :=
  (store.find? (fun e => e.1 = id)).map (fun e => e.2)

/-- Qdrant `client.set_payload(...)`: merge new payload keys into an existing
point's payload; a missing id updates nothing. -/
def setPayload (store : Store) (id : String) (f : Payload → Payload) : Store :=
  store.map (fun e => if e.1 = id then (e.1, f e.2) else e)

/-- The current-salience read in both write-back loops:
`retrieved[0].payload.get("salience", SALIENCE_DEFAULT)` when the point
exists, `SALIENCE_DEFAULT` otherwise. -/
def currentSalience (store : Store) (id : String) : ℚ :=
  match getPayload store id with
  | some p => p.salience.getD SALIENCE_DEFAULT
  | none => SALIENCE_DEFAULT

/-- One iteration of the loop in `write_salience` (memory_service.py lines
45-71): skip falsy ids, read current salience, apply
`min(1.0, current + rerank_score * SALIENCE_BOOST_RATE)`, write back
`salience` and `last_retrieved`. -/
def writeSalienceStep (now : String) (store : Store) (r : Candidate) : Store :=
  if r.id = "" then store
  else
    let newSal := min 1 (currentSalience store r.id +
      r.rerank_score.getD 0 * SALIENCE_BOOST_RATE)
    setPayload store r.id
      (fun p => { p with salience := some newSal, last_retrieved := some now })

/-- `write_salience(collection, results)` with the Qdrant client available:
the per-result loop folded over the store.  The collection argument is
implicit in the choice of `Store`. -/
def write_salience (now : String) (store : Store) (results : List Candidate) :
    Store :=
  results.foldl (writeSalienceStep now) store

/-- One iteration of the loop in `write_usage_salience` (memory_service.py
lines 94-123): boost when `usage_score > 0.3`, flat decay when
`usage_score < 0.1`, and no write at all in between (`continue`).
`usageRate` and `decayRate` stand for `SALIENCE_USAGE_RATE` and
`SALIENCE_DECAY_RATE`, which `memory_service.py` imports but
`atlas/config.py` does not define; they are kept as parameters, per the
spec's description of them as tunable constants. -/
def writeUsageStep (usageRate decayRate : ℚ) (now : String) (store : Store)
    (r : UsageHit) : Store :=
  if r.id = "" then store
  else
    if (0.3 : ℚ) < r.usage_score.getD 0 then
      setPayload store r.id (fun p =>
        { p with salience := some (min 1 (currentSalience store r.id +
                   r.usage_score.getD 0 * usageRate)),
                 last_usage_signal := some now })
    else if r.usage_score.getD 0 < (0.1 : ℚ) then
      setPayload store r.id (fun p =>
        { p with salience := some (max 0 (currentSalience store r.id - decayRate)),
                 last_usage_signal := some now })
    else store

/-- `write_usage_salience(collection, usage_results)` with the Qdrant client
available: the per-hit loop folded over the store. -/
def write_usage_salience (usageRate decayRate : ℚ) (now : String)
    (store : Store) (results : List UsageHit) : Store :=
  results.foldl (writeUsageStep usageRate decayRate now) store

/-- A salience write-back event: either the post-rerank boost or the
usage-signal boost/decay pass. -/
inductive SalienceUpdate where
  | rerank (now : String) (results : List Candidate)
  | usage (now : String) (results : List UsageHit)

/-- Apply one write-back event to the store. -/
def applyUpdate (usageRate decayRate : ℚ) (store : Store) :
    SalienceUpdate → Store
  | .rerank now results => write_salience now store results
  | .usage now results => write_usage_salience usageRate decayRate now store results

/-- Validity condition under which the amended claim C2 holds: every rerank
score fed to `write_salience` is nonnegative.  (The reranker's raw logits
can be negative, which is exactly what breaks the unamended claim.) -/
def updateValid : SalienceUpdate → Prop
  | .rerank _ results => ∀ r ∈ results, 0 ≤ r.rerank_score.getD 0
  | .usage _ _ => True

/-- Every stored salience value lies in `[0, 1]`. -/
def salienceInRange (store : Store) : Prop :=
  ∀ e ∈ store, ∀ s : ℚ, e.2.salience = some s → 0 ≤ s ∧ s ≤ 1

/-! ### The two-stage search orchestrator
(`src/atlas/pipeline.py` and `src/services/vector_store.py`)

The model backends are abstract: the reranker is a function from the candidate
list to `Option (List Candidate)`, `none` standing for "the call raised"
(unreachable GPU, failed model load, ...), `some reranked` for a successful
rerank.  The ANN stage (embed the query, `client.query_points`) is abstracted
into the candidate list it produces, since embedder and Qdrant live outside
the repository and every claim quantifies over their output. -/

/-- `rerank_and_write_salience(query, candidates, collection, limit)`
(pipeline.py lines 16-51).  Returns the candidate list to hand back to
`search` together with the list passed on to `write_salience` (empty when no
write-back happens).  Empty candidates short-circuit; a reranker exception is
caught and the ANN-ordered prefix is returned with no write-back; on success
the full reranked list is written back and its prefix returned. -/
def rerank_and_write_salience (reranker : List Candidate → Option (List Candidate))
    (candidates : List Candidate) (limit : Nat) :
    List Candidate × List Candidate :=
  if candidates.isEmpty then (candidates, [])
  else
    match reranker candidates with
    | none => (candidates.take limit, [])
    | some reranked => (reranked.take limit, reranked)

/-- `search(query, collection, limit, rerank)` (vector_store.py lines
172-222), given the ANN candidate list.  `importOk` models whether
`from atlas.pipeline import rerank_and_write_salience` succeeds; when it
raises, the `except` branch truncates the ANN list.  The second component is
the list handed to `write_salience` (empty when salience write-back never
ran). -/
def search (importOk : Bool) (reranker : List Candidate → Option (List Candidate))
    (ann : List Candidate) (limit : Nat) (rerank : Bool) :
    List Candidate × List Candidate :=
  if rerank && !ann.isEmpty then
    if importOk then rerank_and_write_salience reranker ann limit
    else (ann.take limit, [])
  else (ann.take limit, [])

/-- The tagging loop in `search_all`: `d["source_collection"] = name`. -/
def tagSource (name : String) (cs : List Candidate) : List Candidate :=
  cs.map (fun c => { c with source_collection := some name })

/-- The merge sort key in `search_all`: `x.get(sort_key, 0)` where
`sort_key = "rerank_score" if rerank else "score"`; `score` is always
present on a candidate, `rerank_score` defaults to `0` when absent. -/
def sortKeyVal (rerank : Bool) (c : Candidate) : ℚ :=
  if rerank then c.rerank_score.getD 0 else c.score

/-- `search_all(query, limit, rerank)` (vector_store.py lines 225-250):
search the documents and messages collections, tag each result with its
source collection, concatenate, stable-sort descending by the sort key
(Python's stable `list.sort(..., reverse=True)`), truncate to `limit`. -/
def search_all (importOk : Bool)
    (reranker : List Candidate → Option (List Candidate))
    (annDocs annMsgs : List Candidate) (limit : Nat) (rerank : Bool) :
    List Candidate :=
  let docs := tagSource "documents" (search importOk reranker annDocs limit rerank).1
  let msgs := tagSource "messages" (search importOk reranker annMsgs limit rerank).1
  let combined := docs ++ msgs
  (List.insertionSort
    (fun a b => sortKeyVal rerank b ≤ sortKeyVal rerank a) combined).take limit

/-! ### `point_exists` (`src/services/vector_store.py` lines 154-169)

`client = _get_client()` runs OUTSIDE the `try` block; only the
`client.retrieve` call is guarded.  Both fallible steps are abstract
parameters; `retrieve` returns the list of found point records (modelled by
their ids). -/

/-- The lazily constructed Qdrant client handle. -/
structure QdrantHandle where
  url : String
deriving DecidableEq

/-- `point_exists(collection, point_id)`: client acquisition is unguarded and
propagates its error; a retrieve error is swallowed into `False`; otherwise
the answer is whether at least one point came back. -/
def point_exists (getClient : Except String QdrantHandle)
    (retrieve : QdrantHandle → String → String → Except String (List String))
    (collection point_id : String) : Except String Bool :=
  match getClient with
  | .error e => .error e
  | .ok client =>
    match retrieve client collection point_id with
    | .ok result => .ok (decide (0 < result.length))
    | .error _ => .ok false

/-! ### The usage signal estimator (`src/atlas/usage_signal.py`) -/

/-- A character matched by `[a-z]`. -/
def isLowerAZ (c : Char) : Bool := 'a' ≤ c && c ≤ 'z'

/-- A character matched by `[a-z0-9_]`. -/
def isWordCont (c : Char) : Bool :=
  isLowerAZ c || ('0' ≤ c && c ≤ '9') || c = '_'

/-- Whether the list starts with a `[a-z0-9_]` character. -/
def headIsCont : List Char → Bool
  | [] => false
  | c :: _ => isWordCont c

/-- Fuel-driven scanner for `re.findall(r"[a-z][a-z0-9_]+", text)`: at each
position, a lowercase letter followed by at least one `[a-z0-9_]` character
opens a greedy, non-overlapping match; otherwise advance one character.
Each step consumes at least one character, so fuel equal to the input length
is always sufficient. -/
def tokenizeAux : Nat → List Char → List (List Char)
  | 0, _ => []
  | _, [] => []
  | fuel + 1, c :: rest =>
    if isLowerAZ c && headIsCont rest then
      (c :: rest.takeWhile isWordCont) :: tokenizeAux fuel (rest.dropWhile isWordCont)
    else
      tokenizeAux fuel rest

/-- `re.findall(r"[a-z][a-z0-9_]+", text)` over a character list. -/
def tokenize (cs : List Char) : List (List Char) :=
  tokenizeAux cs.length cs

/-- The `_STOPWORDS` frozenset (usage_signal.py lines 15-30), verbatim. -/
def STOPWORDS : List String :=
  ["the", "a", "an", "is", "are", "was", "were", "be", "been", "being",
   "have", "has", "had", "do", "does", "did", "will", "would", "could",
   "should", "may", "might", "shall", "can", "need", "dare", "ought",
   "used", "to", "of", "in", "for", "on", "with", "at", "by", "from",
   "as", "into", "through", "during", "before", "after", "above", "below",
   "between", "out", "off", "over", "under", "again", "further", "then",
   "once", "here", "there", "when", "where", "why", "how", "all", "each",
   "every", "both", "few", "more", "most", "other", "some", "such", "no",
   "nor", "not", "only", "own", "same", "so", "than", "too", "very",
   "just", "because", "but", "and", "or", "if", "while", "that", "this",
   "these", "those", "it", "its", "i", "me", "my", "we", "our", "you",
   "your", "he", "him", "his", "she", "her", "they", "them", "their",
   "what", "which", "who", "whom", "whose"]

/-- `_MIN_WORD_LEN = 3`. -/
def MIN_WORD_LEN : Nat := 3

/-- Occurrences of `w` in `ws` — `Counter` counts. -/
def countOcc (ws : List String) (w : String) : Nat :=
  (ws.filter (fun x => x = w)).length

/-- The distinct words of `ws` in first-encounter order — the key order of a
`Counter` built by insertion. -/
def dedupFirst (ws : List String) : List String :=
  ws.foldl (fun acc w => if acc.contains w then acc else acc ++ [w]) []

/-- Stable insertion (descending by count) used to model
`Counter.most_common`: a new word goes after every already-placed word of
greater-or-equal count, so ties keep first-encounter order. -/
def insertByCountDesc (ws : List String) (w : String) :
    List String → List String
  | [] => [w]
  | x :: xs =>
    if countOcc ws w ≤ countOcc ws x then x :: insertByCountDesc ws w xs
    else w :: x :: xs

/-- `Counter(ws).most_common(n)`: the distinct words sorted by count
descending, ties in first-encounter order, truncated to `n`. -/
def mostCommon (ws : List String) (n : Nat) : List String :=
  ((dedupFirst ws).foldl (fun acc w => insertByCountDesc ws w acc) []).take n

/-- `_extract_keywords(text, top_n)` (usage_signal.py lines 34-39): lowercase,
tokenize, drop short words and stopwords, keep the `top_n` most common.  The
Python function returns a set; the list returned here is duplicate-free and
is only consumed through membership and length. -/
def extractKeywords (text : String) (top_n : Nat) : List String :=
  let words := (tokenize (text.toList.map Char.toLower)).map (fun cs => String.mk cs)
  let filtered := words.filter
    (fun w => MIN_WORD_LEN ≤ w.length && !STOPWORDS.contains w)
  mostCommon filtered top_n

/-- Python's `round(x, 3)`: scale by 1000 and round to the nearest integer,
ties to even. -/
def pyRound3 (q : ℚ) : ℚ :=
  let scaled := q * 1000
  let fl : ℤ := ⌊scaled⌋
  let frac := scaled - (fl : ℚ)
  let n : ℤ :=
    if (1 : ℚ)/2 < frac then fl + 1
    else if frac < (1 : ℚ)/2 then fl
    else if fl % 2 = 0 then fl else fl + 1
  (n : ℚ) / 1000

/-- A RAG hit as consumed by `compute_usage_signal`: only the `title` field
participates in the computation (the dict's other fields pass through, and
the `source` read in the loop body is never used). -/
structure Hit where
  title : String
deriving DecidableEq

/-- The loop body of `compute_usage_signal` for one hit, given the response
keyword set: empty titles and titles with no extractable keywords score
`0.0`; otherwise `min(1.0, |overlap| / max(|hit_keywords|, 1))` rounded to
three decimals. -/
def usageScoreFor (response_keywords : List String) (hit : Hit) : Hit × ℚ :=
  if hit.title = "" then (hit, 0)
  else if (extractKeywords hit.title 15).isEmpty then (hit, 0)
  else
    (hit, pyRound3 (min 1
      ((((extractKeywords hit.title 15).filter
          (fun w => response_keywords.contains w)).length : ℚ) /
        (max (extractKeywords hit.title 15).length 1 : ℕ))))

/-- `compute_usage_signal(rag_scores, model_response)` (usage_signal.py lines
58-83): empty hits or empty response short-circuit to `[]`; a response with
no extractable keywords also short-circuits to `[]`; otherwise one scored
record per hit, in order. -/
def compute_usage_signal (rag_scores : List Hit) (model_response : String) :
    List (Hit × ℚ) :=
  if rag_scores.isEmpty || model_response = "" then []
  else
    let response_keywords := extractKeywords model_response 50
    if response_keywords.isEmpty then []
    else rag_scores.map (usageScoreFor response_keywords)

/-! ### Character truncation before embedding
(`src/services/embedding.py`, `src/services/bulk_embed.py`) -/

/-- Python string slicing `s[:n]`: the first `n` characters. -/
def strTake (s : String) (n : Nat) : String := String.mk (s.toList.take n)

/-- The per-row truncation in `embed_all_documents` (bulk_embed.py lines
63-65): `if len(content) > MAX_TEXT_CHARS: content = content[:MAX_TEXT_CHARS]`
with `MAX_TEXT_CHARS = 8000`. -/
def bulkTruncate (content : String) : String :=
  if BULK_MAX_TEXT_CHARS < content.length then strTake content BULK_MAX_TEXT_CHARS
  else content

/-- The text content that `embed_passages(texts)` (embedding.py lines 23-34)
sends to the model: `model.encode(texts, prompt_name="document")` passes the
strings through with no character truncation of its own. -/
def embedPassagesSent (texts : List String) : List String := texts

/-- A `documents` row as selected by `embed_all_documents` (id and content
are the fields that decide skipping and truncation). -/
structure DocRow where
  id : String
  content : String
deriving DecidableEq

/-- The sequence of texts `embed_all_documents` passes to `embed_passages`
across all its batches (bulk_embed.py lines 54-67): rows already indexed
(`point_exists`) are skipped, the rest are truncated to 8000 characters.
Batching splits this list into runs of 4 but embeds exactly these texts in
this order. -/
def embedAllDocumentsTexts (rows : List DocRow) (indexed : String → Bool) :
    List String :=
  rows.filterMap
    (fun row => if indexed row.id then none else some (bulkTruncate row.content))

/-- A concrete 8001-character text, one character over the bulk ceiling. -/
def bigText : String := String.mk (List.replicate 8001 'a')

/-! ### Helper lemmas -/

lemma currentSalience_bounds {store : Store} (h : salienceInRange store) (id : String) :
    0 ≤ currentSalience store id ∧ currentSalience store id ≤ 1 := by
  unfold currentSalience getPayload
  cases hf : store.find? (fun e => e.1 = id) with
  | none => norm_num [SALIENCE_DEFAULT]
  | some e =>
    have he : e ∈ store := List.mem_of_find?_eq_some hf
    cases hs : e.2.salience with
    | none => norm_num [hs, SALIENCE_DEFAULT]
    | some s =>
      simpa [hs] using h e he s hs

lemma setPayload_inRange {store : Store} {id : String} {f : Payload → Payload}
    (h : salienceInRange store)
    (hf : ∀ e ∈ store, ∀ s : ℚ, (f e.2).salience = some s → 0 ≤ s ∧ s ≤ 1) :
    salienceInRange (setPayload store id f) := by
  intro e he s hs
  rcases List.mem_map.mp he with ⟨e0, he0, heq⟩
  by_cases h1 : e0.1 = id
  · rw [if_pos h1] at heq
    subst heq
    exact hf e0 he0 s hs
  · rw [if_neg h1] at heq
    subst heq
    exact h e0 he0 s hs

lemma writeSalienceStep_inRange {store : Store} (now : String) (r : Candidate)
    (hr : 0 ≤ r.rerank_score.getD 0) (h : salienceInRange store) :
    salienceInRange (writeSalienceStep now store r) := by
  unfold writeSalienceStep
  split
  · exact h
  · apply setPayload_inRange h
    intro e he s hs
    simp only [Option.some.injEq] at hs
    obtain ⟨hc0, hc1⟩ := currentSalience_bounds h r.id
    subst hs
    refine ⟨le_min (by norm_num) ?_, min_le_left _ _⟩
    have : 0 ≤ r.rerank_score.getD 0 * SALIENCE_BOOST_RATE :=
      mul_nonneg hr (by norm_num [SALIENCE_BOOST_RATE])
    linarith

lemma writeUsageStep_inRange {store : Store} {usageRate decayRate : ℚ}
    (hu : 0 ≤ usageRate) (hd : 0 ≤ decayRate) (now : String) (r : UsageHit)
    (h : salienceInRange store) :
    salienceInRange (writeUsageStep usageRate decayRate now store r) := by
  unfold writeUsageStep
  obtain ⟨hc0, hc1⟩ := currentSalience_bounds h r.id
  split
  · exact h
  · split
    · apply setPayload_inRange h
      intro e he s hs
      simp only [Option.some.injEq] at hs
      subst hs
      refine ⟨le_min (by norm_num) ?_, min_le_left _ _⟩
      have h03 : (0.3 : ℚ) < r.usage_score.getD 0 := by assumption
      have : 0 ≤ r.usage_score.getD 0 * usageRate :=
        mul_nonneg (le_of_lt (lt_trans (by norm_num) h03)) hu
      linarith
    · split
      · apply setPayload_inRange h
        intro e he s hs
        simp only [Option.some.injEq] at hs
        subst hs
        refine ⟨le_max_left _ _, max_le (by norm_num) ?_⟩
        linarith
      · exact h

lemma foldl_preserves {β : Type} {P : β → Prop} {step : Store → β → Store}
    (hstep : ∀ st b, salienceInRange st → P b → salienceInRange (step st b)) :
    ∀ (l : List β) (st : Store), salienceInRange st → (∀ b ∈ l, P b) →
      salienceInRange (l.foldl step st)
  | [], _, hst, _ => hst
  | b :: l, st, hst, hl => by
    simp only [List.foldl]
    exact foldl_preserves hstep l _ (hstep st b hst (hl b (List.mem_cons_self b l)))
      (fun x hx => hl x (List.mem_cons_of_mem b hx))

lemma usageScoreFor_fst (rk : List String) (h : Hit) : (usageScoreFor rk h).1 = h := by
  unfold usageScoreFor
  split_ifs <;> rfl

lemma usageScoreFor_zero (rk : List String) (h : Hit)
    (hc : h.title = "" ∨ extractKeywords h.title 15 = []) :
    (usageScoreFor rk h).2 = 0 := by
  unfold usageScoreFor
  rcases hc with hc | hc
  · rw [if_pos hc]
  · by_cases ht : h.title = ""
    · rw [if_pos ht]
    · rw [if_neg ht, if_pos (by simp [hc])]

lemma map_usageScoreFor_fst (rk : List String) (l : List Hit) :
    (l.map (usageScoreFor rk)).map Prod.fst = l := by
  induction l with
  | nil => rfl
  | cons a t ih => simp [usageScoreFor_fst, ih]

lemma strTake_length (s : String) (n : Nat) : (strTake s n).length = min n s.length := by
  show (s.data.take n).length = min n s.data.length
  exact List.length_take n s.data

lemma bigText_length : bigText.length = 8001 := by
  show (List.replicate 8001 'a').length = 8001
  exact List.length_replicate 8001 'a'

lemma extractKeywords_response_c6 :
    extractKeywords "I love apple pie" 50 = ["love", "apple", "pie"] := by decide

lemma extractKeywords_hit_c6 :
    extractKeywords "apple pie recipe" 15 = ["apple", "pie", "recipe"] := by decide

lemma pyRound3_two_thirds : pyRound3 (2/3 : ℚ) = 667/1000 := by
  have hfl : ⌊(2 / 3 * 1000 : ℚ)⌋ = 666 := by
    rw [Int.floor_eq_iff]
    norm_num
  simp only [pyRound3, hfl]
  rw [if_pos (by norm_num)]
  norm_num

/-! ### Claim theorems -/

/-- C1: because `atlas.memory_service` imports `SALIENCE_USAGE_RATE` and
`SALIENCE_DECAY_RATE` from `atlas.config`, which defines neither, the import
of `atlas.pipeline` raises at module load, so for every query and non-empty
ANN result list `search(query, collection, limit, rerank=True)` runs the
orchestrator's `except` branch: it returns exactly the ANN-ordered candidates
truncated to `limit`, populates no `rerank_score`, and performs no salience
write-back. -/
theorem c1_import_failure_forces_ann_fallback
    (reranker : List Candidate → Option (List Candidate))
    (ann : List Candidate) (limit : Nat) (h : ann ≠ [])
    (hnone : ∀ c ∈ ann, c.rerank_score = none) :
    (search atlasPipelineImportOk reranker ann limit true).1 = ann.take limit ∧
    (search atlasPipelineImportOk reranker ann limit true).2 = [] ∧
    ∀ c ∈ (search atlasPipelineImportOk reranker ann limit true).1,
      c.rerank_score = none := by
  have himp : atlasPipelineImportOk = false := by decide
  cases ann with
  | nil => exact absurd rfl h
  | cons a t =>
    rw [himp]
    refine ⟨by simp [search], by simp [search], ?_⟩
    intro c hc
    have hc2 : c ∈ (a :: t).take limit := by simpa [search] using hc
    exact hnone c (List.take_subset _ _ hc2)

/-- Witness for C1 at a concrete one-element ANN result list. -/
theorem c1_witness :
    ([⟨"x", 1, none, "t", none⟩] : List Candidate) ≠ [] ∧
    (∀ c ∈ ([⟨"x", 1, none, "t", none⟩] : List Candidate), c.rerank_score = none) ∧
    ((search atlasPipelineImportOk (fun _ => none)
        [⟨"x", 1, none, "t", none⟩] 2 true).1 =
      ([⟨"x", 1, none, "t", none⟩] : List Candidate).take 2 ∧
     (search atlasPipelineImportOk (fun _ => none)
        [⟨"x", 1, none, "t", none⟩] 2 true).2 = [] ∧
     ∀ c ∈ (search atlasPipelineImportOk (fun _ => none)
        [⟨"x", 1, none, "t", none⟩] 2 true).1, c.rerank_score = none) :=
  ⟨by simp, by simp, c1_import_failure_forces_ann_fallback _ _ _ (by simp) (by simp)⟩

/-- C2 counterexample: with the formula
`min(1.0, current + rerank_score * SALIENCE_BOOST_RATE)` and no lower floor,
a negative rerank score (the reranker emits raw logits, which can be
negative) drives a stored salience of `0.5` down to `-4.5`, leaving
`[0.0, 1.0]`.  The claim as stated — bounds hold for every real-valued
rerank score — is false. -/
theorem c2_salience_range_counterexample :
    write_salience "t" [("p1", ⟨some (1/2), none, none⟩)]
        [⟨"p1", 0, some (-100), "", none⟩] =
      [("p1", ⟨some (-(9/2) : ℚ), some "t", none⟩)] ∧
    ¬(0 ≤ (-(9/2) : ℚ) ∧ (-(9/2) : ℚ) ≤ 1) := by
  constructor
  · simp only [write_salience, List.foldl, writeSalienceStep]
    rw [if_neg (by decide)]
    simp only [currentSalience, getPayload, setPayload, List.find?, List.map]
    norm_num [SALIENCE_BOOST_RATE, SALIENCE_DEFAULT, min_def]
  · norm_num

/-- C2 amended: for every interleaving of `write_salience` and
`write_usage_salience` passes in which every rerank score handed to
`write_salience` is nonnegative, and with nonnegative usage/decay rate
constants, every stored salience stays within `[0.0, 1.0]` at every step. -/
theorem c2_salience_bounds_amended (usageRate decayRate : ℚ)
    (h1 : 0 ≤ usageRate) (h2 : 0 ≤ decayRate)
    (updates : List SalienceUpdate) (hv : ∀ u ∈ updates, updateValid u)
    (store : Store) (hs : salienceInRange store) :
    salienceInRange (updates.foldl (applyUpdate usageRate decayRate) store) := by
  apply foldl_preserves (P := updateValid) ?_ updates store hs hv
  intro st u hst hu
  cases u with
  | rerank now results =>
    exact foldl_preserves
      (fun st r h hr => writeSalienceStep_inRange now r hr h) results st hst hu
  | usage now results =>
    exact foldl_preserves
      (fun st r h _ => writeUsageStep_inRange h1 h2 now r h) results st hst
      (fun _ _ => trivial)

/-- Witness for the amended C2 at a concrete store and update sequence. -/
theorem c2_witness :
    (0 ≤ (1/10 : ℚ)) ∧ (0 ≤ (1/100 : ℚ)) ∧
    (∀ u ∈ [SalienceUpdate.rerank "t" [⟨"p1", 0, some 1, "", none⟩],
            SalienceUpdate.usage "t2" [⟨"p1", some (1/50)⟩]], updateValid u) ∧
    salienceInRange [("p1", ⟨some (1/2), none, none⟩)] ∧
    salienceInRange
      ([SalienceUpdate.rerank "t" [⟨"p1", 0, some 1, "", none⟩],
        SalienceUpdate.usage "t2" [⟨"p1", some (1/50)⟩]].foldl
        (applyUpdate (1/10) (1/100)) [("p1", ⟨some (1/2), none, none⟩)]) := by
  have hv : ∀ u ∈ [SalienceUpdate.rerank "t" [⟨"p1", 0, some 1, "", none⟩],
      SalienceUpdate.usage "t2" [⟨"p1", some (1/50)⟩]], updateValid u := by
    intro u hu
    rcases List.mem_cons.mp hu with rfl | hu
    · intro r hr
      rcases List.mem_singleton.mp hr with rfl
      norm_num
    · rcases List.mem_singleton.mp hu with rfl
      trivial
  have hs : salienceInRange [("p1", ⟨some (1/2), none, none⟩)] := by
    intro e he s hsal
    rcases List.mem_singleton.mp he with rfl
    simp only [Option.some.injEq] at hsal
    subst hsal
    norm_num
  exact ⟨by norm_num, by norm_num, hv, hs,
    c2_salience_bounds_amended (1/10) (1/100) (by norm_num) (by norm_num) _ hv _ hs⟩

/-- C3: if the reranking client raises on every call, `search` with
`rerank=True` and a non-empty ANN candidate list does not propagate the
error: it returns the ANN-ordered candidates truncated to `limit` (on either
side of the pipeline-import branch), which is non-empty whenever
`limit ≥ 1`. -/
theorem c3_reranker_failure_fallback (importOk : Bool)
    (ann : List Candidate) (limit : Nat) (h : ann ≠ []) :
    (search importOk (fun _ => none) ann limit true).1 = ann.take limit ∧
    (0 < limit → (search importOk (fun _ => none) ann limit true).1 ≠ []) := by
  cases ann with
  | nil => exact absurd rfl h
  | cons a t =>
    have h1 : (search importOk (fun _ => none) (a :: t) limit true).1 =
        (a :: t).take limit := by
      cases importOk <;> simp [search, rerank_and_write_salience]
    refine ⟨h1, fun hl => ?_⟩
    rw [h1]
    cases limit with
    | zero => exact absurd hl (lt_irrefl 0)
    | succ n => simp

/-- Witness for C3 at a concrete candidate list and limit. -/
theorem c3_witness :
    ([⟨"x", 1, none, "t", none⟩] : List Candidate) ≠ [] ∧
    ((search true (fun _ => none) [⟨"x", 1, none, "t", none⟩] 5 true).1 =
      ([⟨"x", 1, none, "t", none⟩] : List Candidate).take 5 ∧
     (0 < 5 →
      (search true (fun _ => none) [⟨"x", 1, none, "t", none⟩] 5 true).1 ≠ [])) :=
  ⟨by simp, c3_reranker_failure_fallback true _ 5 (by simp)⟩

/-- C4 (end-to-end scenario B): the rerank write-back on the single result
`{id: "p1", rerank_score: 1.0}` when `p1` exists with no salience field
(default `0.5`) and `SALIENCE_BOOST_RATE = 0.05` stores salience exactly
`0.55` (together with the `last_retrieved` timestamp). -/
theorem c4_rerank_salience_boost_scenario :
    write_salience "t" [("p1", ⟨none, none, none⟩)]
        [⟨"p1", 0, some 1, "", none⟩] =
      [("p1", ⟨some (0.55 : ℚ), some "t", none⟩)] := by
  simp only [write_salience, List.foldl, writeSalienceStep]
  rw [if_neg (by decide)]
  simp only [currentSalience, getPayload, setPayload, List.find?, List.map]
  norm_num [SALIENCE_BOOST_RATE, SALIENCE_DEFAULT, min_def]

/-- C5: `write_usage_salience` applies a three-way piecewise policy per hit:
above `0.3` the min-capped boost `min(1.0, s + usage_score * USAGE_RATE)`,
below `0.1` the flat decay `max(0.0, s - DECAY_RATE)`, and for every
`usage_score` in `[0.1, 0.3]` the store is left completely untouched (no
salience change, no timestamp). -/
theorem c5_usage_salience_policy (usageRate decayRate : ℚ) (now : String)
    (store : Store) (r : UsageHit) (u : ℚ)
    (hu : r.usage_score = some u) (hid : r.id ≠ "") :
    ((0.3 : ℚ) < u →
      writeUsageStep usageRate decayRate now store r =
        setPayload store r.id (fun p =>
          { p with salience := some (min 1 (currentSalience store r.id + u * usageRate)),
                   last_usage_signal := some now })) ∧
    (u < (0.1 : ℚ) →
      writeUsageStep usageRate decayRate now store r =
        setPayload store r.id (fun p =>
          { p with salience := some (max 0 (currentSalience store r.id - decayRate)),
                   last_usage_signal := some now })) ∧
    ((0.1 : ℚ) ≤ u → u ≤ (0.3 : ℚ) →
      writeUsageStep usageRate decayRate now store r = store) := by
  unfold writeUsageStep
  rw [if_neg hid, hu]
  simp only [Option.getD_some]
  refine ⟨fun h3 => by rw [if_pos h3], fun h1 => ?_, fun ha hb => ?_⟩
  · rw [if_neg (not_lt.mpr (le_of_lt (lt_of_lt_of_le h1 (by norm_num)))), if_pos h1]
  · rw [if_neg (not_lt.mpr hb), if_neg (not_lt.mpr ha)]

/-- Witness for C5 at a dead-zone usage score of `0.2`. -/
theorem c5_witness :
    (⟨"p1", some (1/5)⟩ : UsageHit).usage_score = some (1/5) ∧
    (⟨"p1", some (1/5)⟩ : UsageHit).id ≠ "" ∧
    (((0.3 : ℚ) < (1/5 : ℚ) →
      writeUsageStep (1/10) (1/100) "t" [("p1", ⟨some (1/2), none, none⟩)]
          ⟨"p1", some (1/5)⟩ =
        setPayload [("p1", ⟨some (1/2), none, none⟩)] (⟨"p1", some (1/5)⟩ : UsageHit).id
          (fun p => { p with
            salience := some (min 1
              (currentSalience [("p1", ⟨some (1/2), none, none⟩)]
                (⟨"p1", some (1/5)⟩ : UsageHit).id + (1/5) * (1/10))),
            last_usage_signal := some "t" })) ∧
     ((1/5 : ℚ) < (0.1 : ℚ) →
      writeUsageStep (1/10) (1/100) "t" [("p1", ⟨some (1/2), none, none⟩)]
          ⟨"p1", some (1/5)⟩ =
        setPayload [("p1", ⟨some (1/2), none, none⟩)] (⟨"p1", some (1/5)⟩ : UsageHit).id
          (fun p => { p with
            salience := some (max 0
              (currentSalience [("p1", ⟨some (1/2), none, none⟩)]
                (⟨"p1", some (1/5)⟩ : UsageHit).id - (1/100))),
            last_usage_signal := some "t" })) ∧
     ((0.1 : ℚ) ≤ (1/5 : ℚ) → (1/5 : ℚ) ≤ (0.3 : ℚ) →
      writeUsageStep (1/10) (1/100) "t" [("p1", ⟨some (1/2), none, none⟩)]
          ⟨"p1", some (1/5)⟩ = [("p1", ⟨some (1/2), none, none⟩)])) :=
  ⟨rfl, by simp,
    c5_usage_salience_policy (1/10) (1/100) "t" _ _ (1/5) rfl (by simp)⟩

/-- Evaluation of the spec's scenario C input: hit keywords are
`{apple, pie, recipe}` ("recipe" is neither short nor a stopword), response
keywords `{love, apple, pie}` ("love" is not in the stopword set), overlap
`{apple, pie}`, so the score is `2/3` rounded to three decimals. -/
lemma computeUsage_apple_eval :
    compute_usage_signal [⟨"apple pie recipe"⟩] "I love apple pie" =
      [(⟨"apple pie recipe"⟩, 667/1000)] := by
  simp only [compute_usage_signal, extractKeywords_response_c6]
  rw [if_neg (by decide), if_neg (by decide)]
  simp only [List.map, usageScoreFor, extractKeywords_hit_c6]
  rw [if_neg (by decide), if_neg (by decide)]
  have hov : (["apple", "pie", "recipe"].filter
      (fun w => (["love", "apple", "pie"]).contains w)) = ["apple", "pie"] := by decide
  rw [hov]
  have hmin : min 1 (((["apple", "pie"] : List String).length : ℚ) /
      ((max (["apple", "pie", "recipe"] : List String).length 1 : ℕ) : ℚ)) = 2/3 := by
    norm_num
  rw [hmin, pyRound3_two_thirds]

/-- C6 counterexample: `compute_usage_signal` on the hit
`{"title": "apple pie recipe"}` and the response `"I love apple pie"` yields
usage score `0.667`, not `1.0` as the claim states — "recipe" survives
keyword extraction, so only 2 of the 3 hit keywords overlap the response. -/
theorem c6_usage_score_counterexample :
    (compute_usage_signal [⟨"apple pie recipe"⟩] "I love apple pie").map Prod.snd =
      [(667/1000 : ℚ)] ∧ (667/1000 : ℚ) ≠ 1 := by
  rw [computeUsage_apple_eval]
  exact ⟨rfl, by norm_num⟩

/-- C6 amended: the same call yields usage score exactly `0.667`
(= `round(2/3, 3)`, the overlap `{apple, pie}` over the three hit keywords
`{apple, pie, recipe}`). -/
theorem c6_usage_score_amended :
    compute_usage_signal [⟨"apple pie recipe"⟩] "I love apple pie" =
      [(⟨"apple pie recipe"⟩, 667/1000)] :=
  computeUsage_apple_eval

/-- C7 counterexample: `embed_passages` itself performs no character
truncation — the text it sends to the model is its input unchanged, so an
8001-character input reaches the model whole, longer than both configured
ceilings (6000 in atlas/config.py, 8000 in bulk_embed.py), and is not the
first-N-characters prefix for either ceiling. -/
theorem c7_embed_truncation_counterexample :
    embedPassagesSent [bigText] = [bigText] ∧
    bigText.length = 8001 ∧
    bigText ≠ strTake bigText BULK_MAX_TEXT_CHARS ∧
    bigText ≠ strTake bigText ATLAS_MAX_TEXT_CHARS := by
  refine ⟨rfl, bigText_length, ?_, ?_⟩
  · intro h
    have h2 := congrArg String.length h
    rw [bigText_length, strTake_length, bigText_length] at h2
    simp only [BULK_MAX_TEXT_CHARS] at h2
    omega
  · intro h
    have h2 := congrArg String.length h
    rw [bigText_length, strTake_length, bigText_length] at h2
    simp only [ATLAS_MAX_TEXT_CHARS] at h2
    omega

/-- C7 amended: the truncation lives in the bulk embedding job, not the
embedding client — `embed_all_documents` truncates each non-skipped row's
content to `MAX_TEXT_CHARS = 8000` characters before handing it to
`embed_passages`, so the content embedded for an oversized row is exactly
its first 8000 characters. -/
theorem c7_bulk_truncation_amended (rows : List DocRow) (indexed : String → Bool)
    (row : DocRow) (hrow : row ∈ rows) (hskip : indexed row.id = false)
    (hlen : BULK_MAX_TEXT_CHARS < row.content.length) :
    bulkTruncate row.content ∈ embedAllDocumentsTexts rows indexed ∧
    bulkTruncate row.content = strTake row.content BULK_MAX_TEXT_CHARS ∧
    (bulkTruncate row.content).length = BULK_MAX_TEXT_CHARS := by
  have htr : bulkTruncate row.content = strTake row.content BULK_MAX_TEXT_CHARS := by
    unfold bulkTruncate
    rw [if_pos hlen]
  refine ⟨?_, htr, ?_⟩
  · unfold embedAllDocumentsTexts
    exact List.mem_filterMap.mpr ⟨row, hrow, by rw [hskip]; rfl⟩
  · rw [htr, strTake_length]
    exact Nat.min_eq_left (le_of_lt hlen)

/-- Witness for the amended C7 at a concrete oversized document row. -/
theorem c7_witness :
    (⟨"d1", bigText⟩ : DocRow) ∈ [(⟨"d1", bigText⟩ : DocRow)] ∧
    (fun _ : String => false) (⟨"d1", bigText⟩ : DocRow).id = false ∧
    BULK_MAX_TEXT_CHARS < (⟨"d1", bigText⟩ : DocRow).content.length ∧
    (bulkTruncate (⟨"d1", bigText⟩ : DocRow).content ∈
        embedAllDocumentsTexts [⟨"d1", bigText⟩] (fun _ => false) ∧
      bulkTruncate (⟨"d1", bigText⟩ : DocRow).content =
        strTake (⟨"d1", bigText⟩ : DocRow).content BULK_MAX_TEXT_CHARS ∧
      (bulkTruncate (⟨"d1", bigText⟩ : DocRow).content).length = BULK_MAX_TEXT_CHARS) := by
  have hlen : BULK_MAX_TEXT_CHARS < (⟨"d1", bigText⟩ : DocRow).content.length := by
    show BULK_MAX_TEXT_CHARS < bigText.length
    rw [bigText_length]
    norm_num [BULK_MAX_TEXT_CHARS]
  exact ⟨List.mem_singleton.mpr rfl, rfl, hlen,
    c7_bulk_truncation_amended _ _ _ (List.mem_singleton.mpr rfl) rfl hlen⟩

/-- C8: `search_all` returns at most `limit` results in total, sorted
non-increasingly by the merge key (`rerank_score` with default 0 when
reranking was requested, ANN `score` otherwise), and every returned result
carries a `source_collection` tag matching the collection whose search
produced it. -/
theorem c8_search_all_merge (importOk : Bool)
    (reranker : List Candidate → Option (List Candidate))
    (annDocs annMsgs : List Candidate) (limit : Nat) (rerank : Bool) :
    (search_all importOk reranker annDocs annMsgs limit rerank).length ≤ limit ∧
    List.Sorted (fun a b => sortKeyVal rerank b ≤ sortKeyVal rerank a)
      (search_all importOk reranker annDocs annMsgs limit rerank) ∧
    ∀ c ∈ search_all importOk reranker annDocs annMsgs limit rerank,
      (c.source_collection = some "documents" ∧
        ∃ d ∈ (search importOk reranker annDocs limit rerank).1,
          c = { d with source_collection := some "documents" }) ∨
      (c.source_collection = some "messages" ∧
        ∃ d ∈ (search importOk reranker annMsgs limit rerank).1,
          c = { d with source_collection := some "messages" }) := by
  haveI : IsTotal Candidate (fun a b => sortKeyVal rerank b ≤ sortKeyVal rerank a) :=
    ⟨fun a b => le_total _ _⟩
  haveI : IsTrans Candidate (fun a b => sortKeyVal rerank b ≤ sortKeyVal rerank a) :=
    ⟨fun _ _ _ hab hbc => le_trans hbc hab⟩
  simp only [search_all]
  refine ⟨List.length_take_le _ _, ?_, ?_⟩
  · exact (List.sorted_insertionSort _ _).sublist (List.take_sublist _ _)
  · intro c hc
    have hc2 := List.take_subset _ _ hc
    rw [List.mem_insertionSort] at hc2
    rcases List.mem_append.mp hc2 with hd | hm
    · left
      rcases List.mem_map.mp hd with ⟨d, hd0, rfl⟩
      exact ⟨rfl, d, hd0, rfl⟩
    · right
      rcases List.mem_map.mp hm with ⟨d, hd0, rfl⟩
      exact ⟨rfl, d, hd0, rfl⟩

/-- C9 counterexample: a non-empty hits list and the non-empty response
`"a"` (which yields no extractable keywords) produce an empty output — the
per-hit guarantee fails because `compute_usage_signal` short-circuits when
the response has no keywords. -/
theorem c9_usage_records_counterexample :
    compute_usage_signal [⟨"apple"⟩] "a" = [] ∧
    ("a" : String) ≠ "" ∧ ([(⟨"apple"⟩ : Hit)] : List Hit) ≠ [] :=
  ⟨by decide, by decide, by decide⟩

/-- C9 amended: whenever the hits list is non-empty, the response is
non-empty AND the response yields at least one extractable keyword,
`compute_usage_signal` returns exactly one record per input hit in input
order, and hits with an empty title or no extractable keywords receive
usage score `0.0` rather than being dropped. -/
theorem c9_one_record_per_hit_amended (hits : List Hit) (resp : String)
    (h1 : hits ≠ []) (h2 : resp ≠ "") (h3 : extractKeywords resp 50 ≠ []) :
    (compute_usage_signal hits resp).map Prod.fst = hits ∧
    ∀ pr ∈ compute_usage_signal hits resp,
      (pr.1.title = "" ∨ extractKeywords pr.1.title 15 = []) → pr.2 = 0 := by
  have hcond : (hits.isEmpty || decide (resp = "")) = false := by
    cases hits with
    | nil => exact absurd rfl h1
    | cons a t => simp [h2]
  have hcond2 : (extractKeywords resp 50).isEmpty = false := by
    cases hk : extractKeywords resp 50 with
    | nil => exact absurd hk h3
    | cons a t => rfl
  simp only [compute_usage_signal, hcond, hcond2, Bool.false_eq_true, if_false]
  constructor
  · exact map_usageScoreFor_fst _ hits
  · intro pr hpr
    rcases List.mem_map.mp hpr with ⟨h, hh, rfl⟩
    intro hc
    rw [usageScoreFor_fst] at hc
    exact usageScoreFor_zero _ h hc

/-- Witness for the amended C9: two hits, one with an empty title. -/
theorem c9_witness :
    ([⟨""⟩, ⟨"apple pie"⟩] : List Hit) ≠ [] ∧
    ("apple sauce" : String) ≠ "" ∧
    extractKeywords "apple sauce" 50 ≠ [] ∧
    ((compute_usage_signal [⟨""⟩, ⟨"apple pie"⟩] "apple sauce").map Prod.fst =
        [⟨""⟩, ⟨"apple pie"⟩] ∧
      ∀ pr ∈ compute_usage_signal [⟨""⟩, ⟨"apple pie"⟩] "apple sauce",
        (pr.1.title = "" ∨ extractKeywords pr.1.title 15 = []) → pr.2 = 0) :=
  ⟨by decide, by decide, by decide,
    c9_one_record_per_hit_amended _ _ (by decide) (by decide) (by decide)⟩

/-- C10 counterexample: `point_exists` runs `_get_client()` outside its
`try` block, so a failure while acquiring the Qdrant client propagates to
the caller instead of returning `False` — the function does raise for some
backend failures. -/
theorem c10_point_exists_counterexample :
    point_exists (.error "connection refused") (fun _ _ _ => .ok [])
      "janatpmp_documents" "p1" = .error "connection refused" := rfl

/-- C10 amended: once the client is acquired, `point_exists` never raises:
it returns `True` exactly when the guarded retrieve succeeds with at least
one point, and `False` both on a retrieve exception and on a successful but
empty retrieve. -/
theorem c10_point_exists_amended (getClient : Except String QdrantHandle)
    (c : QdrantHandle)
    (retrieve : QdrantHandle → String → String → Except String (List String))
    (coll pid : String) (h : getClient = .ok c) :
    (∀ e, point_exists getClient retrieve coll pid ≠ .error e) ∧
    (point_exists getClient retrieve coll pid = .ok true ↔
      ∃ pts, retrieve c coll pid = .ok pts ∧ pts ≠ []) ∧
    (∀ e, retrieve c coll pid = .error e →
      point_exists getClient retrieve coll pid = .ok false) := by
  subst h
  cases hr : retrieve c coll pid with
  | error e =>
    have hpe : point_exists (.ok c) retrieve coll pid = .ok false := by
      show (match retrieve c coll pid with
            | .ok result => Except.ok (decide (0 < result.length))
            | .error _ => Except.ok false) = Except.ok false
      rw [hr]
    refine ⟨fun e2 => by simp [hpe], ?_, fun e2 _ => hpe⟩
    rw [hpe]
    constructor
    · intro hfalse
      simp at hfalse
    · rintro ⟨pts, hpts, _⟩
      simp at hpts
  | ok pts =>
    have hpe : point_exists (.ok c) retrieve coll pid =
        .ok (decide (0 < pts.length)) := by
      show (match retrieve c coll pid with
            | .ok result => Except.ok (decide (0 < result.length))
            | .error _ => Except.ok false) = Except.ok (decide (0 < pts.length))
      rw [hr]
    refine ⟨fun e2 => by simp [hpe], ?_,
      fun e2 he2 => by simp at he2⟩
    rw [hpe]
    constructor
    · intro htrue
      simp only [Except.ok.injEq] at htrue
      refine ⟨pts, rfl, fun hnil => ?_⟩
      subst hnil
      simp at htrue
    · rintro ⟨pts2, hpts2, hne⟩
      simp only [Except.ok.injEq] at hpts2
      subst hpts2
      have hlen : 0 < pts.length := List.length_pos.mpr hne
      simp [hlen]

/-- Witness for the amended C10 at a concrete client and retrieve. -/
theorem c10_witness :
    (Except.ok (⟨"http://q:6333"⟩ : QdrantHandle) :
        Except String QdrantHandle) = .ok ⟨"http://q:6333"⟩ ∧
    ((∀ e, point_exists (.ok ⟨"http://q:6333"⟩) (fun _ _ _ => .ok ["p1"]) "docs" "p1" ≠
        .error e) ∧
      (point_exists (.ok ⟨"http://q:6333"⟩) (fun _ _ _ => .ok ["p1"]) "docs" "p1" =
          .ok true ↔
        ∃ pts, (Except.ok ["p1"] : Except String (List String)) = .ok pts ∧ pts ≠ []) ∧
      (∀ e, (Except.ok ["p1"] : Except String (List String)) = .error e →
        point_exists (.ok ⟨"http://q:6333"⟩) (fun _ _ _ => .ok ["p1"]) "docs" "p1" =
          .ok false)) :=
  ⟨rfl, c10_point_exists_amended _ _ _ "docs" "p1" rfl⟩
